import Mathlib

set_option maxRecDepth 1000000

/-!
Verification development for the Magic CV server (`src/unnamed/part_000`, an
Express application) and its browser client (`src/simple-app/public/app.js`).

The server accepts a résumé upload plus a job description, calls a remote
completion API, and renders tailored documents (CV / cover letter / email) as
DOCX or PDF, returned base64-encoded.  External collaborators (the Express
framework, multer, the remote model, pdf-parse, mammoth, the docx Packer and
pdfkit) are modelled as abstract oracles or as concrete serializations; the
repository's own code — the request handler, its helpers, the fence-stripping
and naming logic, the base64 transport round-trip — is embedded faithfully,
statement by statement, below.
-/

/-! ## A model of JavaScript values produced by JSON.parse

`Json.undefined` represents the JavaScript value `undefined`, which is never
produced by the parser itself but arises from property accesses on objects
that lack the requested key. -/

inductive Json where
  | undefined : Json
  | null : Json
  | bool : Bool → Json
  | num : Int → Json
  | str : String → Json
  | arr : List Json → Json
  | obj : List (String × Json) → Json

/-! ### JSON.parse

A recursive-descent parser for JSON text, modelling the JavaScript built-in
`JSON.parse` used at part_000:386 and part_000:391.  Numbers are modelled as
integers and non-integer numeric literals are rejected: the data flowing
through this pipeline (options flags and the ResumeData shape of §3 of the
spec) carries no fractional numbers, and IEEE floats are outside the scope of
this embedding.  Recursion is driven by a fuel argument so that every
definition is structurally recursive and kernel-computable. -/

def isWsChar (c : Char) : Bool := c = ' ' || c = '\n' || c = '\t' || c = '\r'

def skipWs (l : List Char) : List Char := l.dropWhile isWsChar

def hexVal (c : Char) : Option Nat :=
  if '0' ≤ c ∧ c ≤ '9' then some (c.toNat - 48)
  else if 'a' ≤ c ∧ c ≤ 'f' then some (c.toNat - 87)
  else if 'A' ≤ c ∧ c ≤ 'F' then some (c.toNat - 55)
  else none

/-- Body of a JSON string literal, after the opening quote.  Accumulates
characters in reverse; handles the escape sequences JSON.parse accepts and
rejects raw control characters, as JSON.parse does. -/
def pStringRest : Nat → List Char → List Char → Option (String × List Char)
  | 0, _, _ => none
  | _ + 1, [], _ => none
  | fuel + 1, c :: rest, acc =>
    if c = '"' then some (⟨acc.reverse⟩, rest)
    else if c = '\\' then
      match rest with
      | [] => none
      | e :: rest2 =>
        if e = '"' then pStringRest fuel rest2 ('"' :: acc)
        else if e = '\\' then pStringRest fuel rest2 ('\\' :: acc)
        else if e = '/' then pStringRest fuel rest2 ('/' :: acc)
        else if e = 'n' then pStringRest fuel rest2 ('\n' :: acc)
        else if e = 't' then pStringRest fuel rest2 ('\t' :: acc)
        else if e = 'r' then pStringRest fuel rest2 ('\r' :: acc)
        else if e = 'b' then pStringRest fuel rest2 ('\x08' :: acc)
        else if e = 'f' then pStringRest fuel rest2 ('\x0c' :: acc)
        else if e = 'u' then
          match rest2 with
          | h1 :: h2 :: h3 :: h4 :: rest3 =>
            match hexVal h1, hexVal h2, hexVal h3, hexVal h4 with
            | some a, some b, some c2, some d =>
              pStringRest fuel rest3 (Char.ofNat (((a * 16 + b) * 16 + c2) * 16 + d) :: acc)
            | _, _, _, _ => none
          | _ => none
        else none
    else if c.toNat < 32 then none
    else pStringRest fuel rest (c :: acc)

def digitsToNat : List Char → Nat → Nat
  | [], acc => acc
  | c :: rest, acc => digitsToNat rest (acc * 10 + (c.toNat - 48))

def pNumberNat (r : List Char) : Option (Nat × List Char) :=
  let ds := r.takeWhile (fun c => decide ('0' ≤ c) && decide (c ≤ '9'))
  let r2 := r.drop ds.length
  if ds.isEmpty then none
  else
    match r2 with
    | c :: _ => if c = '.' || c = 'e' || c = 'E' then none else some (digitsToNat ds 0, r2)
    | [] => some (digitsToNat ds 0, [])

/-- JSON numeric literal; integer part only (see the module comment above). -/
def pNumber (l : List Char) : Option (Json × List Char) :=
  match l with
  | '-' :: r =>
    match pNumberNat r with
    | some (n, rest) => some (.num (-(n : Int)), rest)
    | none => none
  | _ =>
    match pNumberNat l with
    | some (n, rest) => some (.num (n : Int), rest)
    | none => none

mutual

def pVal : Nat → List Char → Option (Json × List Char)
  | 0, _ => none
  | fuel + 1, l =>
    match skipWs l with
    | [] => none
    | c :: rest =>
      if c = '\x7b' then pObjBody fuel rest
      else if c = '[' then pArrBody fuel rest
      else if c = '"' then
        match pStringRest (fuel + 1) rest [] with
        | some (s, r) => some (.str s, r)
        | none => none
      else if c = 't' then
        match rest with
        | 'r' :: 'u' :: 'e' :: r => some (.bool true, r)
        | _ => none
      else if c = 'f' then
        match rest with
        | 'a' :: 'l' :: 's' :: 'e' :: r => some (.bool false, r)
        | _ => none
      else if c = 'n' then
        match rest with
        | 'u' :: 'l' :: 'l' :: r => some (.null, r)
        | _ => none
      else pNumber (c :: rest)

def pObjBody : Nat → List Char → Option (Json × List Char)
  | 0, _ => none
  | fuel + 1, l =>
    match skipWs l with
    | '\x7d' :: r => some (.obj [], r)
    | _ => pObjMembers fuel l []

def pObjMembers : Nat → List Char → List (String × Json) → Option (Json × List Char)
  | 0, _, _ => none
  | fuel + 1, l, acc =>
    match skipWs l with
    | '"' :: r =>
      match pStringRest (fuel + 1) r [] with
      | none => none
      | some (k, r2) =>
        match skipWs r2 with
        | ':' :: r3 =>
          match pVal fuel r3 with
          | none => none
          | some (v, r4) =>
            match skipWs r4 with
            | ',' :: r5 => pObjMembers fuel r5 ((k, v) :: acc)
            | '\x7d' :: r5 => some (.obj ((k, v) :: acc).reverse, r5)
            | _ => none
        | _ => none
    | _ => none

def pArrBody : Nat → List Char → Option (Json × List Char)
  | 0, _ => none
  | fuel + 1, l =>
    match skipWs l with
    | ']' :: r => some (.arr [], r)
    | _ => pArrItems fuel l []

def pArrItems : Nat → List Char → List Json → Option (Json × List Char)
  | 0, _, _ => none
  | fuel + 1, l, acc =>
    match pVal fuel l with
    | none => none
    | some (v, r) =>
      match skipWs r with
      | ',' :: r2 => pArrItems fuel r2 (v :: acc)
      | ']' :: r2 => some (.arr (v :: acc).reverse, r2)
      | _ => none

end

/-- `JSON.parse`: parse a complete JSON document, requiring only trailing
whitespace after the top-level value. -/
def jsonParse (s : String) : Option Json :=
  match pVal (s.data.length + 2) s.data with
  | some (v, rest) => if (skipWs rest).isEmpty then some v else none
  | none => none

/-! ### JavaScript operational helpers

These model the JavaScript semantics the handler relies on: property access
(throwing on `null`/`undefined` bases), truthiness, template-literal string
coercion, `Array.prototype.join`, `String.prototype.toUpperCase`, and
`for..of` iteration.  Thrown `TypeError`s are modelled as `Except.error`
with an approximation of the engine's message text. -/

/-- Duplicate keys in a JSON object: `JSON.parse` keeps the last occurrence. -/
def lookupLast (l : List (String × Json)) (k : String) : Option Json :=
  ((l.filter (fun p => p.1 == k)).getLast?).map Prod.snd

/-- JavaScript property access `base[k]`: `undefined` for missing keys and for
non-object primitive bases; a thrown `TypeError` when the base is `null` or
`undefined`. -/
def jsGet : Json → String → Except String Json
  | .obj l, k => .ok ((lookupLast l k).getD .undefined)
  | .null, k => .error ("Cannot read properties of null (reading " ++ k ++ ")")
  | .undefined, k => .error ("Cannot read properties of undefined (reading " ++ k ++ ")")
  | _, _ => .ok .undefined

/-- Total variant of property access, usable once the base is known not to be
`null`/`undefined` (it agrees with `jsGet` there). -/
def jsGetD : Json → String → Json
  | .obj l, k => (lookupLast l k).getD .undefined
  | _, _ => .undefined

/-- JavaScript truthiness, as used by `if (options.cv)` etc. -/
def truthy : Json → Bool
  | .undefined => false
  | .null => false
  | .bool b => b
  | .num n => n != 0
  | .str s => s != ""
  | .arr _ => true
  | .obj _ => true

mutual

/-- `String(v)` / template-literal coercion of a JavaScript value. -/
def jsToString : Json → String
  | .undefined => "undefined"
  | .null => "null"
  | .bool b => cond b "true" "false"
  | .num n => toString n
  | .str s => s
  | .arr l => jsListStr l
  | .obj _ => "[object Object]"

/-- `Array.prototype.toString`: elements joined by commas, with `null` and
`undefined` elements rendered as the empty string. -/
def jsListStr : List Json → String
  | [] => ""
  | [j] => (match j with | .null => "" | .undefined => "" | j2 => jsToString j2)
  | j :: js => (match j with | .null => "" | .undefined => "" | j2 => jsToString j2) ++ "," ++ jsListStr js

end

/-- Element rendering used by `Array.prototype.join`. -/
def jsArrElemStr : Json → String
  | .null => ""
  | .undefined => ""
  | j => jsToString j

def joinSep (sep : String) : List String → String
  | [] => ""
  | [x] => x
  | x :: xs => x ++ sep ++ joinSep sep xs

/-- `v.join(sep)`: throws when `v` is not an array (`undefined`/`null` bases
throw a property-read error; other non-arrays lack a callable `join`). -/
def jsJoinField : Json → String → Except String String
  | .arr l, sep => .ok (joinSep sep (l.map jsArrElemStr))
  | .undefined, _ => .error ("Cannot read properties of undefined (reading join)")
  | .null, _ => .error ("Cannot read properties of null (reading join)")
  | _, _ => .error ("join is not a function")

/-- `v.toUpperCase()`: defined on strings only. -/
def jsToUpperJS : Json → Except String String
  | .str s => .ok ⟨s.data.map Char.toUpper⟩
  | .undefined => .error ("Cannot read properties of undefined (reading toUpperCase)")
  | .null => .error ("Cannot read properties of null (reading toUpperCase)")
  | _ => .error ("toUpperCase is not a function")

/-- `for..of` iteration: throws when the value is not iterable. -/
def jsArrayIter : Json → Except String (List Json)
  | .arr l => .ok l
  | .undefined => .error ("undefined is not iterable")
  | .null => .error ("null is not iterable")
  | _ => .error ("value is not iterable")

/-- Approximation of the engine's `SyntaxError` text for a failed
`JSON.parse`; the exact wording is V8-version dependent and no claim depends
on it. -/
def jsonSyntaxError : String := "Unexpected token in JSON"

/-! ### Fence stripping (part_000:391)

`tailoredCVResponse.replace(/```json|```/g, "")` removes every occurrence of
a fence marker anywhere in the string, trying the `` ```json `` alternative
first at each position, exactly as the JavaScript global regex replace
does. -/

/-- The backtick character. -/
def btChar : Char := Char.ofNat 96

/-- One left-to-right scan;  at each position the `` ```json `` alternative is
tried before `` ``` ``, as the regex engine does.  The fuel argument only
drives the recursion; every step consumes at least one character, so
`length + 1` fuel always suffices. -/
def stripFenceCharsF : Nat → List Char → List Char
  | 0, l => l
  | _ + 1, [] => []
  | fuel + 1, c :: rest =>
    if c = btChar then
      match rest with
      | c2 :: c3 :: rest2 =>
        if c2 = btChar && c3 = btChar then
          match rest2 with
          | j :: s :: o :: n :: rest3 =>
            if j = 'j' && s = 's' && o = 'o' && n = 'n' then stripFenceCharsF fuel rest3
            else stripFenceCharsF fuel rest2
          | _ => stripFenceCharsF fuel rest2
        else c :: stripFenceCharsF fuel rest
      | _ => c :: stripFenceCharsF fuel rest
    else c :: stripFenceCharsF fuel rest

def stripFencesAll (s : String) : String := ⟨stripFenceCharsF (s.data.length + 1) s.data⟩

/-- JavaScript `String.prototype.trim` (on the ASCII whitespace the pipeline
encounters). -/
def jsTrimChars (l : List Char) : List Char :=
  ((l.dropWhile isWsChar).reverse.dropWhile isWsChar).reverse

def jsTrim (s : String) : String := ⟨jsTrimChars s.data⟩

/-- The résumé-response parse performed at part_000:391:
`JSON.parse(tailoredCVResponse.replace(/```json|```/g, "").trim())`. -/
def parsedResume (s : String) : Option Json := jsonParse (jsTrim (stripFencesAll s))

/-- The stripping described by the spec's words (§4.3: "strip leading/trailing
code-fence markers before parsing"): remove one leading `` ```json `` or
`` ``` `` marker and one trailing `` ``` `` marker, at the edges only.  This
definition follows the spec, not the source; it exists solely to compare the
spec's description against the code's global removal. -/
def specStripFences (s : String) : String :=
  let t := jsTrimChars s.data
  let t1 :=
    if ("```json".data).isPrefixOf t then t.drop 7
    else if ("```".data).isPrefixOf t then t.drop 3
    else t
  let t2 := if ("```".data).isSuffixOf t1 then t1.take (t1.length - 3) else t1
  ⟨jsTrimChars t2⟩

/-! ### Base64 (Buffer.toString("base64") at part_000:400/408/416, and the
decoding loop of `downloadFile` in app.js:56-84, i.e. `atob` plus
`charCodeAt`).  Bytes are natural numbers below 256. -/

def base64Chars : List Char :=
  ['A', 'B', 'C', 'D', 'E', 'F', 'G', 'H', 'I', 'J', 'K', 'L', 'M',
   'N', 'O', 'P', 'Q', 'R', 'S', 'T', 'U', 'V', 'W', 'X', 'Y', 'Z',
   'a', 'b', 'c', 'd', 'e', 'f', 'g', 'h', 'i', 'j', 'k', 'l', 'm',
   'n', 'o', 'p', 'q', 'r', 's', 't', 'u', 'v', 'w', 'x', 'y', 'z',
   '0', '1', '2', '3', '4', '5', '6', '7', '8', '9', '+', '/']

def sextetChar (n : Nat) : Char := base64Chars.getD n 'A'

def charSextet (c : Char) : Option Nat := base64Chars.findIdx? (fun x => x == c)

/-- Base64 encoding of a byte list, three bytes to four characters with
`=` padding, as produced by `Buffer.toString("base64")`. -/
def b64EncodeChunks : List Nat → List Char
  | [] => []
  | [a] => [sextetChar (a / 4), sextetChar (a % 4 * 16), '=', '=']
  | [a, b] => [sextetChar (a / 4), sextetChar (a % 4 * 16 + b / 16), sextetChar (b % 16 * 4), '=']
  | a :: b :: c :: rest =>
    sextetChar (a / 4) :: sextetChar (a % 4 * 16 + b / 16) ::
      sextetChar (b % 16 * 4 + c / 64) :: sextetChar (c % 64) :: b64EncodeChunks rest

def b64Encode (bytes : List Nat) : String := ⟨b64EncodeChunks bytes⟩

/-- Base64 decoding as performed by `downloadFile` (app.js:63-69): `atob`
reconstructs the binary string, then each character code becomes one byte.
Invalid input yields `none` (a thrown `InvalidCharacterError`). -/
def b64DecodeChunks : List Char → Option (List Nat)
  | [] => some []
  | w :: x :: y :: z :: rest =>
    match charSextet w, charSextet x with
    | some a, some b =>
      if y = '=' then
        if z = '=' && rest.isEmpty then some [a * 4 + b / 16] else none
      else
        match charSextet y with
        | some c =>
          if z = '=' then
            if rest.isEmpty then some [a * 4 + b / 16, b % 16 * 16 + c / 4] else none
          else
            match charSextet z with
            | some d =>
              match b64DecodeChunks rest with
              | some tail => some ((a * 4 + b / 16) :: (b % 16 * 16 + c / 4) :: (c % 4 * 64 + d) :: tail)
              | none => none
            | none => none
        | none => none
    | _, _ => none
  | _ => none

def b64Decode (s : String) : Option (List Nat) := b64DecodeChunks s.data

/-! ## The server model (`src/unnamed/part_000`)

External collaborators are collected in `Oracles`: the pdf-parse and mammoth
text extractors (§4.1 calls them out as external) and the remote completion
endpoint reached by `callDeepSeek` (part_000:66-86).  `complete` receives the
system prompt, the user prompt and the `max_tokens` argument, exactly the
data `callDeepSeek` forwards; a network failure or non-2xx response is an
`Except.error`. -/

structure UploadedFile where
  path : String
  mimetype : String
  bytes : List Nat

structure Oracles where
  pdfExtract : List Nat → Except String String
  docxExtract : List Nat → Except String String
  complete : String → String → Nat → Except String String

/-- Observable effects of one request, used to state the validation,
cleanup and sequencing claims. -/
inductive Ev where
  | readFile (path : String)
  | completionCall (kind : String)
  | parseResume
  | renderDoc (kind : String)
  | unlink (path : String)
deriving DecidableEq

/-- Accepted MIME types (part_000:43). -/
def allowedTypes : List String :=
  ["application/pdf", "application/vnd.openxmlformats-officedocument.wordprocessingml.document"]

/-- `fileFilter` (part_000:42-49): accept exactly the two allowed MIME
types. -/
def fileFilterAccepts (mimetype : String) : Bool := allowedTypes.contains mimetype

/-- The multer acceptance check: `fileFilter` plus the
`limits: { fileSize: 10 * 1024 * 1024 }` bound of part_000:51. -/
def uploadAccepted (f : UploadedFile) : Bool :=
  fileFilterAccepts f.mimetype && decide (f.bytes.length ≤ 10 * 1024 * 1024)

/-- `parseCVContent` (part_000:54-63): read the temporary file, then dispatch
on the declared MIME type — pdf-parse for `application/pdf`, mammoth raw-text
extraction for everything else.  The file read is recorded as an event. -/
def parseCVContent (o : Oracles) (f : UploadedFile) : Except String String × List Ev :=
  ((if f.mimetype = "application/pdf" then o.pdfExtract f.bytes else o.docxExtract f.bytes),
   [Ev.readFile f.path])

/-! ### Prompt builders (part_000:89-127) -/

def resumeSystemPrompt : String := "You are an expert CV writer. Always output JSON."

def resumeUserPrompt (cvContent jobDescription : String) : String :=
  "You are a professional CV writer. Analyze the original CV and tailor it for the target job.\n\nORIGINAL CV:\n"
    ++ cvContent
    ++ "\n\nTARGET JOB DESCRIPTION:\n"
    ++ jobDescription
    ++ "\n\nINSTRUCTIONS:\n1. Extract candidate\x27s EXACT name, email, phone, location from CV\n2. Create professional summary (3-4 sentences)\n3. Rewrite bullet points for experience to match target job\n4. List relevant skills\n5. Include EXACT education details\n\nOUTPUT FORMAT (JSON):\n\x7b\n  \"personalInfo\": \x7b \"fullName\": \"...\", \"email\": \"...\", \"phone\": \"...\", \"location\": \"...\", \"linkedin\": \"...\" \x7d,\n  \"summary\": \"...\",\n  \"experience\": [ \x7b \"title\": \"...\", \"company\": \"...\", \"location\": \"...\", \"dates\": \"...\", \"achievements\": [\"...\"] \x7d ],\n  \"skills\": [\"...\"],\n  \"education\": [ \x7b \"degree\": \"...\", \"institution\": \"...\", \"dates\": \"...\", \"details\": \"...\" \x7d ]\n\x7d\n\nReturn ONLY valid JSON."

def clSystemPrompt : String := "You write professional cover letters without placeholders or asterisks."

def clUserPrompt (cvContent jobDescription candidateName : String) : String :=
  "Write a professional cover letter for " ++ candidateName ++ " for this job:\n"
    ++ jobDescription ++ "\nOriginal CV Context:\n" ++ cvContent

def emailSystemPrompt : String := "You write professional job application emails without placeholders or asterisks."

def emailUserPrompt (jobDescription candidateName : String) : String :=
  "Write a professional application email for " ++ candidateName ++ " for this job:\n" ++ jobDescription

/-! ### Renderers (part_000:130-381)

The external packers (`Packer.toBuffer` of the docx library, the pdfkit
stream) are modelled as concrete serializations of the block structure the
repository code builds: a DOCX buffer starts with the ZIP local-header magic
`PK\x03\x04`, a PDF buffer with `%PDF`.  The blocks record the text content
of each paragraph the source constructs, in source order; purely visual
attributes (fonts, colors, spacings) are not needed by any claim and are
not modelled. -/

inductive DocxBlock where
  | heading (text : String)
  | para (text : String)
  | divider

def strBytes (s : String) : List Nat := s.data.map (fun c => c.toNat % 256)

def docxBlockBytes : DocxBlock → List Nat
  | .heading t => 1 :: strBytes t
  | .para t => 2 :: strBytes t
  | .divider => [3]

def docxPack (blocks : List DocxBlock) : List Nat :=
  [80, 75, 3, 4] ++ (blocks.map docxBlockBytes).flatten

def pdfPack (lines : List String) : List Nat :=
  [37, 80, 68, 70] ++ (lines.map (fun t => 0 :: strBytes t)).flatten

/-- One experience entry as rendered by both CV renderers. -/
structure JobView where
  header : String
  locDates : String
  achievements : List String

/-- One education entry as rendered by both CV renderers. -/
structure EduView where
  degree : String
  instDates : String

/-- The text content both CV renderers extract from the parsed résumé data,
with the JavaScript dereference/iteration failures both share:
`generateCVDocx` (part_000:130-312) and `generateCVPDF` (part_000:315-367)
read `personalInfo.fullName.toUpperCase()`, the contact template, `summary`,
iterate `experience` (reading title/company/location/dates and iterating
`achievements`), call `skills.join("  •  ")` and iterate `education`, in
this order. -/
structure CvFields where
  fullNameUpper : String
  contactLine : String
  summary : String
  jobs : List JobView
  skillsLine : String
  eduList : List EduView

def jobView (j : Json) : Except String JobView := do
  let title ← jsGet j ("title")
  let company ← jsGet j ("company")
  let loc ← jsGet j ("location")
  let dates ← jsGet j ("dates")
  let achJson ← jsGet j ("achievements")
  let achs ← jsArrayIter achJson
  pure { header := jsToString title ++ "  |  " ++ jsToString company,
         locDates := jsToString loc ++ " | " ++ jsToString dates,
         achievements := achs.map jsToString }

def eduView (e : Json) : Except String EduView := do
  let degree ← jsGet e ("degree")
  let inst ← jsGet e ("institution")
  let dates ← jsGet e ("dates")
  pure { degree := jsToString degree,
         instDates := jsToString inst ++ " | " ++ jsToString dates }

def extractCvFields (cvData : Json) : Except String CvFields := do
  let pinfo ← jsGet cvData ("personalInfo")
  let fullNameJ ← jsGet pinfo ("fullName")
  let fullNameUpper ← jsToUpperJS fullNameJ
  let email ← jsGet pinfo ("email")
  let phone ← jsGet pinfo ("phone")
  let loc ← jsGet pinfo ("location")
  let summaryJ ← jsGet cvData ("summary")
  let expJson ← jsGet cvData ("experience")
  let expList ← jsArrayIter expJson
  let jobs ← expList.mapM jobView
  let skillsJ ← jsGet cvData ("skills")
  let skillsLine ← jsJoinField skillsJ ("  •  ")
  let eduJson ← jsGet cvData ("education")
  let eduListJ ← jsArrayIter eduJson
  let eduList ← eduListJ.mapM eduView
  pure { fullNameUpper := fullNameUpper,
         contactLine := jsToString email ++ " | " ++ jsToString phone ++ " | " ++ jsToString loc,
         summary := jsToString summaryJ,
         jobs := jobs,
         skillsLine := skillsLine,
         eduList := eduList }

def cvDocxBlocks (fs : CvFields) : List DocxBlock :=
  [DocxBlock.para fs.fullNameUpper, DocxBlock.para fs.contactLine, DocxBlock.divider,
   DocxBlock.heading ("PROFESSIONAL SUMMARY"), DocxBlock.para fs.summary,
   DocxBlock.heading ("PROFESSIONAL EXPERIENCE")]
    ++ (fs.jobs.map (fun j =>
          [DocxBlock.para j.header, DocxBlock.para j.locDates]
            ++ j.achievements.map (fun a => DocxBlock.para ("• " ++ a)))).flatten
    ++ [DocxBlock.heading ("SKILLS"), DocxBlock.para fs.skillsLine,
        DocxBlock.heading ("EDUCATION")]
    ++ (fs.eduList.map (fun e => [DocxBlock.para e.degree, DocxBlock.para e.instDates])).flatten

/-- `generateCVDocx` (part_000:130-312). -/
def generateCVDocx (cvData : Json) : Except String (List Nat) := do
  let fs ← extractCvFields cvData
  pure (docxPack (cvDocxBlocks fs))

def cvPdfLines (fs : CvFields) : List String :=
  [fs.fullNameUpper, fs.contactLine,
   "PROFESSIONAL SUMMARY", fs.summary,
   "PROFESSIONAL EXPERIENCE"]
    ++ (fs.jobs.map (fun j =>
          [j.header, j.locDates] ++ j.achievements.map (fun a => "• " ++ a))).flatten
    ++ ["SKILLS", fs.skillsLine, "EDUCATION"]
    ++ (fs.eduList.map (fun e => [e.degree, e.instDates])).flatten

/-- `generateCVPDF` (part_000:315-367).  The promise executor only resolves,
but a synchronous throw inside it (a failed dereference) rejects the
promise, hence the `Except`. -/
def generateCVPDF (cvData : Json) : Except String (List Nat) := do
  let fs ← extractCvFields cvData
  pure (pdfPack (cvPdfLines fs))

/-- `generateTextPDF` (part_000:369-381): title sized 18 centered, then the
body text. -/
def generateTextPDF (title body : String) : Except String (List Nat) :=
  .ok (pdfPack [title, body])

/-- Modelled from the spec: `generateTextDocx` is invoked by the orchestrator
at part_000:408 and part_000:416 but its definition is not among the provided
sources.  Spec §4.4 describes it: "Plain-text variant: single title heading +
body paragraph(s)", a DOCX renderer taking `(title, body)` plain text and
producing a binary buffer.  It is modelled as the pack of a single title
heading block followed by the body paragraph. -/
def generateTextDocx (title body : String) : Except String (List Nat) :=
  .ok (docxPack [DocxBlock.heading title, DocxBlock.para body])

/-! ## The request orchestrator (`POST /api/tailor-cv`, part_000:383-426)

The handler is embedded stage by stage, in the source's evaluation order:

  1. `JSON.parse(optionsStr)` (part_000:386) — throws on malformed options;
  2. `req.file` dereference (part_000:389, `cvFile.path`) — throws when no
     file was uploaded;
  3. `parseCVContent` (part_000:389);
  4. the résumé completion call (part_000:390);
  5. fence-strip + `JSON.parse` of the response (part_000:391);
  6. `cvData.personalInfo.fullName` (part_000:392);
  7. fan-out over the selected tasks (part_000:397-418), `Promise.all`
     (part_000:420);
  8. `fs.unlinkSync` and the success payload (part_000:421-422), or the
     catch-all error response (part_000:423-425).

Each stage returns its `Except` result together with the list of observable
events it performed.  The fan-out tasks are sequenced here in program order
(cv, coverLetter, email); their real execution interleaves, but every claim
below depends only on the set of events and on the all-or-nothing outcome,
both of which are interleaving-independent (when several tasks fail,
`Promise.all` surfaces whichever rejection settles first — this model
resolves that tie in program order, and no claim depends on the choice). -/

structure Request where
  jobDescription : String
  optionsStr : String
  file : Option UploadedFile

structure DocEntry where
  preview : String
  fileName : String
  fileData : String

structure Payload where
  cv : Option DocEntry
  coverLetter : Option DocEntry
  email : Option DocEntry

/-- `cvData.personalInfo.fullName` (part_000:392). -/
def candidateNameField (d : Json) : Except String Json := do
  let pinfo ← jsGet d ("personalInfo")
  jsGet pinfo ("fullName")

/-- `options.format` as read inside the tasks (part_000:399/400 etc.). -/
def fmtOf (opts : Json) : Json := jsGetD opts ("format")

/-- `options.format === "pdf"` (strict equality with a string literal). -/
def isPdfFmt : Json → Bool
  | .str s => s == "pdf"
  | _ => false

/-- The cv task (part_000:397-402): record preview and file name, then render
with the format-selected CV renderer and base64-encode the buffer. -/
def runCvTask (resp : String) (d : Json) (nameJ fmtJ : Json) (isPdf : Bool) :
    Except String DocEntry :=
  match (if isPdf then generateCVPDF d else generateCVDocx d) with
  | .error e => .error e
  | .ok buf =>
    .ok { preview := resp,
          fileName := jsToString nameJ ++ "_CV." ++ jsToString fmtJ,
          fileData := b64Encode buf }

/-- The coverLetter task (part_000:404-410): one completion call, then the
plain-text renderer for the selected format. -/
def runClTask (o : Oracles) (content jd : String) (nameJ fmtJ : Json) (isPdf : Bool) :
    Except String DocEntry × List Ev :=
  match o.complete clSystemPrompt (clUserPrompt content jd (jsToString nameJ)) 2048 with
  | .error e => (.error e, [Ev.completionCall ("coverLetter")])
  | .ok text =>
    match (if isPdf then generateTextPDF ("Cover Letter") text else generateTextDocx ("Cover Letter") text) with
    | .error e => (.error e, [Ev.completionCall ("coverLetter")])
    | .ok buf =>
      (.ok { preview := text,
             fileName := jsToString nameJ ++ "_Cover_Letter." ++ jsToString fmtJ,
             fileData := b64Encode buf },
       [Ev.completionCall ("coverLetter")])

/-- The email task (part_000:412-418). -/
def runEmailTask (o : Oracles) (jd : String) (nameJ fmtJ : Json) (isPdf : Bool) :
    Except String DocEntry × List Ev :=
  match o.complete emailSystemPrompt (emailUserPrompt jd (jsToString nameJ)) 1024 with
  | .error e => (.error e, [Ev.completionCall ("email")])
  | .ok text =>
    match (if isPdf then generateTextPDF ("Application Email") text else generateTextDocx ("Application Email") text) with
    | .error e => (.error e, [Ev.completionCall ("email")])
    | .ok buf =>
      (.ok { preview := text,
             fileName := jsToString nameJ ++ "_Email." ++ jsToString fmtJ,
             fileData := b64Encode buf },
       [Ev.completionCall ("email")])

def taskErr : Option (Except String DocEntry) → Option String
  | some (.error e) => some e
  | _ => none

def taskOk : Option (Except String DocEntry) → Option DocEntry
  | some (.ok v) => some v
  | _ => none

/-- `Promise.all` over the selected tasks: the first rejection (in the
program-order tie-break explained above) fails the whole batch. -/
def firstTaskErr (a b c : Option (Except String DocEntry)) : Option String :=
  match taskErr a with
  | some e => some e
  | none =>
    match taskErr b with
    | some e => some e
    | none => taskErr c

/-- The cv task result, when selected. -/
def cvSel (resp : String) (d : Json) (nameJ : Json) (opts : Json) (cv : Bool) :
    Option (Except String DocEntry) :=
  if cv then some (runCvTask resp d nameJ (fmtOf opts) (isPdfFmt (fmtOf opts))) else none

/-- The coverLetter task result and events, when selected. -/
def clSel (o : Oracles) (content jd : String) (nameJ : Json) (opts : Json) (cl : Bool) :
    Option (Except String DocEntry) × List Ev :=
  if cl then
    (some (runClTask o content jd nameJ (fmtOf opts) (isPdfFmt (fmtOf opts))).1,
     (runClTask o content jd nameJ (fmtOf opts) (isPdfFmt (fmtOf opts))).2)
  else (none, [])

/-- The email task result and events, when selected. -/
def emSel (o : Oracles) (jd : String) (nameJ : Json) (opts : Json) (em : Bool) :
    Option (Except String DocEntry) × List Ev :=
  if em then
    (some (runEmailTask o jd nameJ (fmtOf opts) (isPdfFmt (fmtOf opts))).1,
     (runEmailTask o jd nameJ (fmtOf opts) (isPdfFmt (fmtOf opts))).2)
  else (none, [])

/-- Fan-out (part_000:394-418), fan-in and cleanup (part_000:420-422).  The
uploaded file is unlinked only after `Promise.all` succeeds. -/
def runTasks (o : Oracles) (jd : String) (opts : Json) (f : UploadedFile)
    (content resp : String) (d : Json) (nameJ : Json) (cv cl em : Bool) :
    Except String Payload × List Ev :=
  match firstTaskErr (cvSel resp d nameJ opts cv) (clSel o content jd nameJ opts cl).1
      (emSel o jd nameJ opts em).1 with
  | some e => (.error e, (clSel o content jd nameJ opts cl).2 ++ (emSel o jd nameJ opts em).2)
  | none =>
    (.ok { cv := taskOk (cvSel resp d nameJ opts cv),
           coverLetter := taskOk (clSel o content jd nameJ opts cl).1,
           email := taskOk (emSel o jd nameJ opts em).1 },
     (clSel o content jd nameJ opts cl).2 ++ (emSel o jd nameJ opts em).2 ++ [Ev.unlink f.path])

/-- Stages 5-7: after the résumé completion returned `resp`. -/
def afterResume (o : Oracles) (jd : String) (opts : Json) (f : UploadedFile)
    (content resp : String) : Except String Payload × List Ev :=
  match parsedResume resp with
  | none => (.error jsonSyntaxError, [])
  | some d =>
    match candidateNameField d with
    | .error e => (.error e, [])
    | .ok nameJ =>
      match jsGet opts ("cv") with
      | .error e => (.error e, [])
      | .ok cvF =>
        match jsGet opts ("coverLetter") with
        | .error e => (.error e, [])
        | .ok clF =>
          match jsGet opts ("email") with
          | .error e => (.error e, [])
          | .ok emF =>
            runTasks o jd opts f content resp d nameJ (truthy cvF) (truthy clF) (truthy emF)

/-- Stage 4 onwards: the mandatory résumé completion call, then the rest. -/
def afterExtract (o : Oracles) (jd : String) (opts : Json) (f : UploadedFile)
    (content : String) : Except String Payload × List Ev :=
  match o.complete resumeSystemPrompt (resumeUserPrompt content jd) 4000 with
  | .error e => (.error e, [Ev.completionCall ("resume")])
  | .ok resp =>
    ((afterResume o jd opts f content resp).1,
     Ev.completionCall ("resume") :: (afterResume o jd opts f content resp).2)

/-- The whole `POST /api/tailor-cv` handler body (part_000:383-426). -/
def tailorHandler (o : Oracles) (req : Request) : Except String Payload × List Ev :=
  match jsonParse req.optionsStr with
  | none => (.error jsonSyntaxError, [])
  | some opts =>
    match req.file with
    | none => (.error ("Cannot read properties of undefined (reading path)"), [])
    | some f =>
      match (parseCVContent o f).1 with
      | .error e => (.error e, [Ev.readFile f.path])
      | .ok content =>
        ((afterExtract o req.jobDescription opts f content).1,
         Ev.readFile f.path :: (afterExtract o req.jobDescription opts f content).2)

/-! ### The HTTP response (part_000:422-425) -/

inductive HttpBody where
  | success (p : Payload)
  | failure (error : String)

structure HttpResponse where
  status : Nat
  body : HttpBody

/-- `res.json({success: true, ...results})` on success,
`res.status(500).json({error: err.message})` on any thrown error. -/
def respond : Except String Payload → HttpResponse
  | .ok p => ⟨200, .success p⟩
  | .error e => ⟨500, .failure e⟩

/-! ### Statement helpers: projections of the handler outcome -/

def cvEntry : Except String Payload → Option DocEntry
  | .ok p => p.cv
  | .error _ => none

def clEntry : Except String Payload → Option DocEntry
  | .ok p => p.coverLetter
  | .error _ => none

def emailEntry : Except String Payload → Option DocEntry
  | .ok p => p.email
  | .error _ => none

/-! ## Task-graph trace model for the fan-out (part_000:390-420)

For the sequencing claim, the handler's control flow with all three options
selected is modelled as a task graph: a mandatory sequential prefix
(file read at part_000:389, résumé completion at part_000:390, JSON parse at
part_000:391), after which the three async task bodies pushed at
part_000:397-418 run; `await Promise.all` (part_000:420) only joins them.
An observable schedule is the prefix followed by any interleaving of the
three per-task event sequences.  Per-task order is fixed by each task body;
the cover-letter and email tasks each perform their completion call and then
their render. -/

inductive Interleaving : List Ev → List Ev → List Ev → Prop where
  | nil : Interleaving [] [] []
  | left {a b c : List Ev} (x : Ev) (h : Interleaving a b c) :
      Interleaving (x :: a) b (x :: c)
  | right {a b c : List Ev} (x : Ev) (h : Interleaving a b c) :
      Interleaving a (x :: b) (x :: c)

def cvTaskEvs : List Ev := [Ev.renderDoc ("cv")]

def clTaskEvs : List Ev := [Ev.completionCall ("coverLetter"), Ev.renderDoc ("coverLetter")]

def emailTaskEvs : List Ev := [Ev.completionCall ("email"), Ev.renderDoc ("email")]

def seqPrefixEvs (p : String) : List Ev :=
  [Ev.readFile p, Ev.completionCall ("resume"), Ev.parseResume]

/-- The observable schedules of one all-three-selected request: the mandatory
prefix, then any interleaving of the three task traces. -/
def handlerSchedule (p : String) (w : List Ev) : Prop :=
  ∃ u m, Interleaving clTaskEvs emailTaskEvs u ∧ Interleaving u cvTaskEvs m ∧
    w = seqPrefixEvs p ++ m

/-- A concrete overlapped schedule: the email completion call falls strictly
between the cover-letter completion call and the cover-letter render. -/
def wOverlap : List Ev :=
  seqPrefixEvs ("up") ++
    [Ev.completionCall ("coverLetter"), Ev.completionCall ("email"),
     Ev.renderDoc ("coverLetter"), Ev.renderDoc ("email"), Ev.renderDoc ("cv")]

/-! ## Concrete fixtures used by witnesses and counterexamples -/

def docxMime : String := "application/vnd.openxmlformats-officedocument.wordprocessingml.document"

def fileA : UploadedFile :=
  { path := "uploads/1712000000000-123456789.docx", mimetype := docxMime, bytes := [80, 75, 3, 4, 20] }

def filePdfA : UploadedFile :=
  { path := "uploads/1712000000000-987654321.pdf", mimetype := "application/pdf", bytes := [37, 80, 68, 70, 45] }

/-- A complete well-formed résumé response, every field the renderers read. -/
def fullResumeJson : String :=
  "\x7b\"personalInfo\":\x7b\"fullName\":\"Jane Doe\",\"email\":\"jane@x.com\",\"phone\":\"555-1234\",\"location\":\"Boston\",\"linkedin\":\"ln\"\x7d,\"summary\":\"Seasoned engineer.\",\"experience\":[\x7b\"title\":\"Engineer\",\"company\":\"Acme\",\"location\":\"Boston\",\"dates\":\"2020-2024\",\"achievements\":[\"Shipped v2\",\"Cut latency\"]\x7d],\"skills\":[\"Go\",\"SQL\"],\"education\":[\x7b\"degree\":\"BSc\",\"institution\":\"MIT\",\"dates\":\"2016-2020\",\"details\":\"CS\"\x7d]\x7d"

/-- The parsed form of `fullResumeJson`. -/
def fullResumeData : Json :=
  Json.obj
    [("personalInfo", Json.obj
        [("fullName", Json.str ("Jane Doe")), ("email", Json.str ("jane@x.com")),
         ("phone", Json.str ("555-1234")), ("location", Json.str ("Boston")),
         ("linkedin", Json.str ("ln"))]),
     ("summary", Json.str ("Seasoned engineer.")),
     ("experience", Json.arr
        [Json.obj
          [("title", Json.str ("Engineer")), ("company", Json.str ("Acme")),
           ("location", Json.str ("Boston")), ("dates", Json.str ("2020-2024")),
           ("achievements", Json.arr [Json.str ("Shipped v2"), Json.str ("Cut latency")])]]),
     ("skills", Json.arr [Json.str ("Go"), Json.str ("SQL")]),
     ("education", Json.arr
        [Json.obj
          [("degree", Json.str ("BSc")), ("institution", Json.str ("MIT")),
           ("dates", Json.str ("2016-2020")), ("details", Json.str ("CS"))]])]

def optsNoneStr : String :=
  "\x7b\"cv\":false,\"coverLetter\":false,\"email\":false,\"format\":\"docx\"\x7d"

def optsCvOnlyStr : String :=
  "\x7b\"cv\":true,\"coverLetter\":false,\"email\":false,\"format\":\"docx\"\x7d"

def optsClEmailStr : String :=
  "\x7b\"cv\":false,\"coverLetter\":true,\"email\":true,\"format\":\"docx\"\x7d"

def optsAllStr : String :=
  "\x7b\"cv\":true,\"coverLetter\":true,\"email\":true,\"format\":\"docx\"\x7d"

/-- Oracles whose completions always succeed: the résumé call answers with the
full résumé JSON, the other calls with plain text. -/
def oracleFull : Oracles :=
  { pdfExtract := fun _ => .ok ("PDF TEXT"),
    docxExtract := fun _ => .ok ("CV CONTENT"),
    complete := fun sys _ _ =>
      if sys = resumeSystemPrompt then .ok fullResumeJson
      else if sys = clSystemPrompt then .ok ("Dear Hiring Manager, I write to apply.")
      else .ok ("Hello, please find my application attached.") }

/-- Oracles whose résumé completion returns text that is not JSON. -/
def oracleBadJson : Oracles :=
  { pdfExtract := fun _ => .ok ("PDF TEXT"),
    docxExtract := fun _ => .ok ("CV CONTENT"),
    complete := fun _ _ _ => .ok ("Sorry, I cannot produce JSON today.") }

/-- Oracles whose résumé response is wrapped in a markdown code fence. -/
def oracleFenced : Oracles :=
  { pdfExtract := fun _ => .ok ("PDF TEXT"),
    docxExtract := fun _ => .ok ("CV CONTENT"),
    complete := fun sys _ _ =>
      if sys = resumeSystemPrompt then .ok ("```json\n" ++ fullResumeJson ++ "\n```")
      else .ok ("text") }

/-- Oracles for which only the email completion fails. -/
def oracleEmailDown : Oracles :=
  { pdfExtract := fun _ => .ok ("PDF TEXT"),
    docxExtract := fun _ => .ok ("CV CONTENT"),
    complete := fun sys _ _ =>
      if sys = resumeSystemPrompt then .ok fullResumeJson
      else if sys = clSystemPrompt then .ok ("Dear Hiring Manager, I write to apply.")
      else .error ("getaddrinfo ENOTFOUND api.deepseek.com") }

def reqNoOpts : Request :=
  { jobDescription := "", optionsStr := optsNoneStr, file := some fileA }

def reqNoFile : Request :=
  { jobDescription := "Senior Backend Engineer", optionsStr := optsCvOnlyStr, file := none }

def reqCvOnly : Request :=
  { jobDescription := "Senior Backend Engineer", optionsStr := optsCvOnlyStr, file := some fileA }

def reqClEmail : Request :=
  { jobDescription := "Senior Backend Engineer", optionsStr := optsClEmailStr, file := some fileA }

def reqAll : Request :=
  { jobDescription := "Senior Backend Engineer", optionsStr := optsAllStr, file := some fileA }

/-- The résumé response used to refute the leading/trailing-only stripping
reading: a fence marker occurs in the middle of a JSON string value. -/
def c4input : String := "\x7b\"personalInfo\":\x7b\"fullName\":\"a```b\"\x7d\x7d"

/-- The full name obtained along the code's path: global fence removal, trim,
parse, then `personalInfo.fullName`. -/
def codeParsedName (s : String) : Option String :=
  match parsedResume s with
  | some d =>
    match candidateNameField d with
    | .ok (Json.str n) => some n
    | _ => none
  | none => none

/-- The full name obtained along the path the spec describes: strip
leading/trailing fence markers only, parse, then `personalInfo.fullName`. -/
def specParsedName (s : String) : Option String :=
  match jsonParse (specStripFences s) with
  | some d =>
    match candidateNameField d with
    | .ok (Json.str n) => some n
    | _ => none
  | none => none

/-- Parsed form of `optsNoneStr`. -/
def optsNoneJson : Json :=
  Json.obj [("cv", Json.bool false), ("coverLetter", Json.bool false),
            ("email", Json.bool false), ("format", Json.str ("docx"))]

/-- Parsed form of `optsCvOnlyStr`. -/
def optsCvOnlyJson : Json :=
  Json.obj [("cv", Json.bool true), ("coverLetter", Json.bool false),
            ("email", Json.bool false), ("format", Json.str ("docx"))]

/-- Parsed form of `optsClEmailStr`. -/
def optsClEmailJson : Json :=
  Json.obj [("cv", Json.bool false), ("coverLetter", Json.bool true),
            ("email", Json.bool true), ("format", Json.str ("docx"))]

/-- Parsed form of `optsAllStr`. -/
def optsAllJson : Json :=
  Json.obj [("cv", Json.bool true), ("coverLetter", Json.bool true),
            ("email", Json.bool true), ("format", Json.str ("docx"))]

/-! ## Helper lemmas -/

theorem charSextet_sextetChar : ∀ n < 64, charSextet (sextetChar n) = some n := by decide

theorem sextetChar_ne_pad : ∀ n < 64, sextetChar n ≠ '=' := by decide

theorem b64_roundtrip_chunks :
    ∀ bs : List Nat, (∀ b ∈ bs, b < 256) → b64DecodeChunks (b64EncodeChunks bs) = some bs
  | [], _ => rfl
  | [a], h => by
    have ha : a < 256 := h a (by simp)
    have h1 : a / 4 < 64 := by omega
    have h2 : a % 4 * 16 < 64 := by omega
    simp only [b64EncodeChunks, b64DecodeChunks,
      charSextet_sextetChar _ h1, charSextet_sextetChar _ h2]
    simp
    omega
  | [a, b], h => by
    have ha : a < 256 := h a (by simp)
    have hb : b < 256 := h b (by simp)
    have h1 : a / 4 < 64 := by omega
    have h2 : a % 4 * 16 + b / 16 < 64 := by omega
    have h3 : b % 16 * 4 < 64 := by omega
    have hne := sextetChar_ne_pad _ h3
    simp only [b64EncodeChunks, b64DecodeChunks,
      charSextet_sextetChar _ h1, charSextet_sextetChar _ h2, charSextet_sextetChar _ h3]
    simp [hne]
    omega
  | a :: b :: c :: rest, h => by
    have ha : a < 256 := h a (by simp)
    have hb : b < 256 := h b (by simp)
    have hc : c < 256 := h c (by simp)
    have htail : ∀ x ∈ rest, x < 256 := fun x hx => h x (by simp [hx])
    have h1 : a / 4 < 64 := by omega
    have h2 : a % 4 * 16 + b / 16 < 64 := by omega
    have h3 : b % 16 * 4 + c / 64 < 64 := by omega
    have h4 : c % 64 < 64 := by omega
    have hne3 := sextetChar_ne_pad _ h3
    have hne4 := sextetChar_ne_pad _ h4
    have ih := b64_roundtrip_chunks rest htail
    simp only [b64EncodeChunks, b64DecodeChunks,
      charSextet_sextetChar _ h1, charSextet_sextetChar _ h2,
      charSextet_sextetChar _ h3, charSextet_sextetChar _ h4]
    simp [hne3, hne4, ih]
    omega

/-- Claim C9: encoding any renderer output (a byte list) to base64, as
`Buffer.toString("base64")` does for the `fileData` field, and decoding it
back with the `atob`/`charCodeAt` loop of `downloadFile` reproduces exactly
the original bytes. -/
theorem c9_base64_roundtrip (bytes : List Nat) (h : ∀ b ∈ bytes, b < 256) :
    b64Decode (b64Encode bytes) = some bytes := by
  simpa [b64Decode, b64Encode] using b64_roundtrip_chunks bytes h

theorem c9_base64_roundtrip_witness :
    b64Decode (b64Encode [77, 97, 110, 255, 0, 80, 75]) = some [77, 97, 110, 255, 0, 80, 75] :=
  c9_base64_roundtrip [77, 97, 110, 255, 0, 80, 75] (by decide)

theorem handlerSchedule_wOverlap : handlerSchedule ("up") wOverlap := by
  refine ⟨[Ev.completionCall ("coverLetter"), Ev.completionCall ("email"),
           Ev.renderDoc ("coverLetter"), Ev.renderDoc ("email")],
          [Ev.completionCall ("coverLetter"), Ev.completionCall ("email"),
           Ev.renderDoc ("coverLetter"), Ev.renderDoc ("email"), Ev.renderDoc ("cv")],
          ?_, ?_, rfl⟩
  · exact .left _ (.right _ (.left _ (.right _ .nil)))
  · exact .left _ (.left _ (.left _ (.left _ (.right _ .nil))))

/-- Claim C6: in every observable schedule of an all-three-selected request,
the résumé completion call sits at position 1, strictly before every
cover-letter or email completion call; and the schedule set contains a run in
which the email completion call falls strictly between the cover-letter
completion call and the cover-letter render, i.e. the fan-out tasks execute
concurrently rather than in sequence. -/
theorem c6_resume_before_fanout :
    (∀ (p : String) (w : List Ev) (j : Nat), handlerSchedule p w →
      (w.get? j = some (Ev.completionCall ("coverLetter")) ∨
        w.get? j = some (Ev.completionCall ("email"))) →
      1 < j ∧ w.get? 1 = some (Ev.completionCall ("resume"))) ∧
    (handlerSchedule ("up") wOverlap ∧
      wOverlap.get? 3 = some (Ev.completionCall ("coverLetter")) ∧
      wOverlap.get? 4 = some (Ev.completionCall ("email")) ∧
      wOverlap.get? 5 = some (Ev.renderDoc ("coverLetter"))) := by
  constructor
  · rintro p w j ⟨u, m, h1, h2, rfl⟩ hj
    refine ⟨?_, rfl⟩
    match j with
    | 0 => rcases hj with hj | hj <;> simp [seqPrefixEvs] at hj
    | 1 => rcases hj with hj | hj <;> simp [seqPrefixEvs] at hj
    | 2 => rcases hj with hj | hj <;> simp [seqPrefixEvs] at hj
    | j + 3 => omega
  · exact ⟨handlerSchedule_wOverlap, rfl, rfl, rfl⟩

theorem c6_resume_before_fanout_witness :
    1 < 3 ∧ wOverlap.get? 1 = some (Ev.completionCall ("resume")) :=
  c6_resume_before_fanout.1 ("up") wOverlap 3 handlerSchedule_wOverlap (Or.inl (by decide))

theorem handler_run (o : Oracles) (req : Request) (f : UploadedFile) (opts : Json)
    (content : String)
    (hf : req.file = some f)
    (hopts : jsonParse req.optionsStr = some opts)
    (hx : (parseCVContent o f).1 = .ok content) :
    tailorHandler o req =
      ((afterExtract o req.jobDescription opts f content).1,
       Ev.readFile f.path :: (afterExtract o req.jobDescription opts f content).2) := by
  unfold tailorHandler
  simp only [hopts, hf, hx]

theorem afterExtract_run (o : Oracles) (jd : String) (opts : Json) (f : UploadedFile)
    (content resp : String)
    (hr : o.complete resumeSystemPrompt (resumeUserPrompt content jd) 4000 = .ok resp) :
    afterExtract o jd opts f content =
      ((afterResume o jd opts f content resp).1,
       Ev.completionCall ("resume") :: (afterResume o jd opts f content resp).2) := by
  unfold afterExtract
  rw [hr]

theorem afterResume_run (o : Oracles) (jd : String) (opts : Json) (f : UploadedFile)
    (content resp : String) (d nameJ cvF clF emF : Json)
    (hd : parsedResume resp = some d)
    (hn : candidateNameField d = .ok nameJ)
    (hcv : jsGet opts ("cv") = .ok cvF)
    (hcl : jsGet opts ("coverLetter") = .ok clF)
    (hem : jsGet opts ("email") = .ok emF) :
    afterResume o jd opts f content resp =
      runTasks o jd opts f content resp d nameJ (truthy cvF) (truthy clF) (truthy emF) := by
  unfold afterResume
  simp only [hd, hn, hcv, hcl, hem]

theorem resume_call_mem_afterExtract (o : Oracles) (jd : String) (opts : Json)
    (f : UploadedFile) (content : String) :
    Ev.completionCall ("resume") ∈ (afterExtract o jd opts f content).2 := by
  unfold afterExtract
  cases o.complete resumeSystemPrompt (resumeUserPrompt content jd) 4000 <;> simp

theorem handler_to_runTasks (o : Oracles) (req : Request) (f : UploadedFile) (opts : Json)
    (content resp : String) (d nameJ cvF clF emF : Json)
    (hf : req.file = some f)
    (hopts : jsonParse req.optionsStr = some opts)
    (hx : (parseCVContent o f).1 = .ok content)
    (hr : o.complete resumeSystemPrompt (resumeUserPrompt content req.jobDescription) 4000 = .ok resp)
    (hd : parsedResume resp = some d)
    (hn : candidateNameField d = .ok nameJ)
    (hcv : jsGet opts ("cv") = .ok cvF)
    (hcl : jsGet opts ("coverLetter") = .ok clF)
    (hem : jsGet opts ("email") = .ok emF) :
    (tailorHandler o req).1 =
      (runTasks o req.jobDescription opts f content resp d nameJ
        (truthy cvF) (truthy clF) (truthy emF)).1 := by
  rw [handler_run o req f opts content hf hopts hx]
  show (afterExtract o req.jobDescription opts f content).1 = _
  rw [afterExtract_run o req.jobDescription opts f content resp hr]
  show (afterResume o req.jobDescription opts f content resp).1 = _
  rw [afterResume_run o req.jobDescription opts f content resp d nameJ cvF clF emF hd hn hcv hcl hem]

theorem firstTaskErr_none_iff (a b c : Option (Except String DocEntry)) :
    firstTaskErr a b c = none ↔ taskErr a = none ∧ taskErr b = none ∧ taskErr c = none := by
  unfold firstTaskErr
  cases taskErr a <;> cases taskErr b <;> cases taskErr c <;> simp

theorem taskErr_none_some {r : Except String DocEntry} (h : taskErr (some r) = none) :
    ∃ v, r = .ok v := by
  cases r with
  | error e => simp [taskErr] at h
  | ok v => exact ⟨v, rfl⟩

theorem runTasks_fst_ok (o : Oracles) (jd : String) (opts : Json) (f : UploadedFile)
    (content resp : String) (d nameJ : Json) (cv cl em : Bool)
    (h : firstTaskErr (cvSel resp d nameJ opts cv) (clSel o content jd nameJ opts cl).1
        (emSel o jd nameJ opts em).1 = none) :
    (runTasks o jd opts f content resp d nameJ cv cl em).1 =
      .ok { cv := taskOk (cvSel resp d nameJ opts cv),
            coverLetter := taskOk (clSel o content jd nameJ opts cl).1,
            email := taskOk (emSel o jd nameJ opts em).1 } := by
  unfold runTasks
  rw [h]

theorem runTasks_fst_err (o : Oracles) (jd : String) (opts : Json) (f : UploadedFile)
    (content resp : String) (d nameJ : Json) (cv cl em : Bool) (e : String)
    (h : firstTaskErr (cvSel resp d nameJ opts cv) (clSel o content jd nameJ opts cl).1
        (emSel o jd nameJ opts em).1 = some e) :
    (runTasks o jd opts f content resp d nameJ cv cl em).1 = .error e := by
  unfold runTasks
  rw [h]

theorem runCvTask_ok (resp : String) (d nameJ fmtJ : Json) (ip : Bool) (v : DocEntry)
    (h : runCvTask resp d nameJ fmtJ ip = .ok v) :
    v.preview = resp ∧ v.fileName = jsToString nameJ ++ "_CV." ++ jsToString fmtJ := by
  unfold runCvTask at h
  split at h
  · exact absurd h (by simp)
  · cases h
    exact ⟨rfl, rfl⟩

theorem runClTask_ok (o : Oracles) (content jd : String) (nameJ fmtJ : Json) (ip : Bool)
    (v : DocEntry) (h : (runClTask o content jd nameJ fmtJ ip).1 = .ok v) :
    v.fileName = jsToString nameJ ++ "_Cover_Letter." ++ jsToString fmtJ := by
  unfold runClTask at h
  split at h
  · exact absurd h (by simp)
  · split at h
    · exact absurd h (by simp)
    · cases h
      rfl

theorem runEmailTask_ok (o : Oracles) (jd : String) (nameJ fmtJ : Json) (ip : Bool)
    (v : DocEntry) (h : (runEmailTask o jd nameJ fmtJ ip).1 = .ok v) :
    v.fileName = jsToString nameJ ++ "_Email." ++ jsToString fmtJ := by
  unfold runEmailTask at h
  split at h
  · exact absurd h (by simp)
  · split at h
    · exact absurd h (by simp)
    · cases h
      rfl

theorem taskOk_name_cv (resp : String) (d nameJ opts : Json) (b : Bool)
    (hno : taskErr (cvSel resp d nameJ opts b) = none) :
    (taskOk (cvSel resp d nameJ opts b)).map DocEntry.fileName =
      (if b then some (jsToString nameJ ++ "_CV." ++ jsToString (fmtOf opts)) else none) := by
  cases b with
  | false => simp [cvSel, taskOk]
  | true =>
    simp only [cvSel, if_true] at hno ⊢
    obtain ⟨v, hv⟩ := taskErr_none_some hno
    rw [hv]
    simp [taskOk, (runCvTask_ok resp d nameJ (fmtOf opts) (isPdfFmt (fmtOf opts)) v hv).2]

theorem taskOk_preview_cv (resp : String) (d nameJ opts : Json)
    (hno : taskErr (cvSel resp d nameJ opts true) = none) :
    (taskOk (cvSel resp d nameJ opts true)).map DocEntry.preview = some resp := by
  simp only [cvSel, if_true] at hno ⊢
  obtain ⟨v, hv⟩ := taskErr_none_some hno
  rw [hv]
  simp [taskOk, (runCvTask_ok resp d nameJ (fmtOf opts) (isPdfFmt (fmtOf opts)) v hv).1]

theorem taskOk_name_cl (o : Oracles) (content jd : String) (nameJ opts : Json) (b : Bool)
    (hno : taskErr (clSel o content jd nameJ opts b).1 = none) :
    (taskOk (clSel o content jd nameJ opts b).1).map DocEntry.fileName =
      (if b then some (jsToString nameJ ++ "_Cover_Letter." ++ jsToString (fmtOf opts)) else none) := by
  cases b with
  | false => simp [clSel, taskOk]
  | true =>
    simp only [clSel, if_true] at hno ⊢
    obtain ⟨v, hv⟩ := taskErr_none_some hno
    rw [hv]
    simp [taskOk, runClTask_ok o content jd nameJ (fmtOf opts) (isPdfFmt (fmtOf opts)) v hv]

theorem taskOk_name_em (o : Oracles) (jd : String) (nameJ opts : Json) (b : Bool)
    (hno : taskErr (emSel o jd nameJ opts b).1 = none) :
    (taskOk (emSel o jd nameJ opts b).1).map DocEntry.fileName =
      (if b then some (jsToString nameJ ++ "_Email." ++ jsToString (fmtOf opts)) else none) := by
  cases b with
  | false => simp [emSel, taskOk]
  | true =>
    simp only [emSel, if_true] at hno ⊢
    obtain ⟨v, hv⟩ := taskErr_none_some hno
    rw [hv]
    simp [taskOk, runEmailTask_ok o jd nameJ (fmtOf opts) (isPdfFmt (fmtOf opts)) v hv]

/-- Claim C7: for every successful request, the response contains exactly the
document kinds selected in options and no others, and each fileName is the
candidate name followed by its kind-specific suffix and the requested format
extension: `<name>_CV.<format>`, `<name>_Cover_Letter.<format>`,
`<name>_Email.<format>`. -/
theorem c7_selected_docs_filenames (o : Oracles) (req : Request) (f : UploadedFile)
    (opts : Json) (content resp : String) (d nameJ cvF clF emF : Json)
    (hf : req.file = some f)
    (hopts : jsonParse req.optionsStr = some opts)
    (hx : (parseCVContent o f).1 = .ok content)
    (hr : o.complete resumeSystemPrompt (resumeUserPrompt content req.jobDescription) 4000 = .ok resp)
    (hd : parsedResume resp = some d)
    (hn : candidateNameField d = .ok nameJ)
    (hcv : jsGet opts ("cv") = .ok cvF)
    (hcl : jsGet opts ("coverLetter") = .ok clF)
    (hem : jsGet opts ("email") = .ok emF)
    (hok : (respond (tailorHandler o req).1).status = 200) :
    (cvEntry (tailorHandler o req).1).map DocEntry.fileName =
      (if truthy cvF then some (jsToString nameJ ++ "_CV." ++ jsToString (fmtOf opts)) else none) ∧
    (clEntry (tailorHandler o req).1).map DocEntry.fileName =
      (if truthy clF then some (jsToString nameJ ++ "_Cover_Letter." ++ jsToString (fmtOf opts)) else none) ∧
    (emailEntry (tailorHandler o req).1).map DocEntry.fileName =
      (if truthy emF then some (jsToString nameJ ++ "_Email." ++ jsToString (fmtOf opts)) else none) := by
  have h1 := handler_to_runTasks o req f opts content resp d nameJ cvF clF emF
    hf hopts hx hr hd hn hcv hcl hem
  rw [h1] at hok ⊢
  cases hfe : firstTaskErr (cvSel resp d nameJ opts (truthy cvF))
      (clSel o content req.jobDescription nameJ opts (truthy clF)).1
      (emSel o req.jobDescription nameJ opts (truthy emF)).1 with
  | some e =>
    rw [runTasks_fst_err o req.jobDescription opts f content resp d nameJ
      (truthy cvF) (truthy clF) (truthy emF) e hfe] at hok
    simp [respond] at hok
  | none =>
    obtain ⟨hA, hB, hC⟩ := (firstTaskErr_none_iff _ _ _).mp hfe
    rw [runTasks_fst_ok o req.jobDescription opts f content resp d nameJ
      (truthy cvF) (truthy clF) (truthy emF) hfe]
    refine ⟨?_, ?_, ?_⟩
    · simpa [cvEntry] using taskOk_name_cv resp d nameJ opts (truthy cvF) hA
    · simpa [clEntry] using taskOk_name_cl o content req.jobDescription nameJ opts (truthy clF) hB
    · simpa [emailEntry] using taskOk_name_em o req.jobDescription nameJ opts (truthy emF) hC

theorem c7_selected_docs_filenames_witness :
    (cvEntry (tailorHandler oracleFull reqAll).1).map DocEntry.fileName = some ("Jane Doe_CV.docx") ∧
    (clEntry (tailorHandler oracleFull reqAll).1).map DocEntry.fileName = some ("Jane Doe_Cover_Letter.docx") ∧
    (emailEntry (tailorHandler oracleFull reqAll).1).map DocEntry.fileName = some ("Jane Doe_Email.docx") := by
  have h := c7_selected_docs_filenames oracleFull reqAll fileA optsAllJson
    ("CV CONTENT") fullResumeJson fullResumeData (Json.str ("Jane Doe"))
    (Json.bool true) (Json.bool true) (Json.bool true)
    rfl rfl rfl rfl rfl rfl rfl rfl rfl rfl
  exact ⟨h.1.trans (by rfl), h.2.1.trans (by rfl), h.2.2.trans (by rfl)⟩

/-- Claim C10: for every successful request with cv selected, the returned
cv.preview equals the model's raw résumé response verbatim — fences and all —
not the fence-stripped text and not a re-serialization of the parsed data. -/
theorem c10_preview_verbatim (o : Oracles) (req : Request) (f : UploadedFile)
    (opts : Json) (content resp : String) (d nameJ cvF clF emF : Json)
    (hf : req.file = some f)
    (hopts : jsonParse req.optionsStr = some opts)
    (hx : (parseCVContent o f).1 = .ok content)
    (hr : o.complete resumeSystemPrompt (resumeUserPrompt content req.jobDescription) 4000 = .ok resp)
    (hd : parsedResume resp = some d)
    (hn : candidateNameField d = .ok nameJ)
    (hcv : jsGet opts ("cv") = .ok cvF)
    (hcl : jsGet opts ("coverLetter") = .ok clF)
    (hem : jsGet opts ("email") = .ok emF)
    (htr : truthy cvF = true)
    (hok : (respond (tailorHandler o req).1).status = 200) :
    (cvEntry (tailorHandler o req).1).map DocEntry.preview = some resp := by
  have h1 := handler_to_runTasks o req f opts content resp d nameJ cvF clF emF
    hf hopts hx hr hd hn hcv hcl hem
  rw [h1] at hok ⊢
  cases hfe : firstTaskErr (cvSel resp d nameJ opts (truthy cvF))
      (clSel o content req.jobDescription nameJ opts (truthy clF)).1
      (emSel o req.jobDescription nameJ opts (truthy emF)).1 with
  | some e =>
    rw [runTasks_fst_err o req.jobDescription opts f content resp d nameJ
      (truthy cvF) (truthy clF) (truthy emF) e hfe] at hok
    simp [respond] at hok
  | none =>
    obtain ⟨hA, hB, hC⟩ := (firstTaskErr_none_iff _ _ _).mp hfe
    rw [runTasks_fst_ok o req.jobDescription opts f content resp d nameJ
      (truthy cvF) (truthy clF) (truthy emF) hfe]
    rw [htr] at hA
    simpa [cvEntry, htr] using taskOk_preview_cv resp d nameJ opts hA

theorem c10_preview_verbatim_witness :
    (cvEntry (tailorHandler oracleFenced reqCvOnly).1).map DocEntry.preview =
      some ("```json\n" ++ fullResumeJson ++ "\n```") :=
  c10_preview_verbatim oracleFenced reqCvOnly fileA optsCvOnlyJson
    ("CV CONTENT") ("```json\n" ++ fullResumeJson ++ "\n```") fullResumeData
    (Json.str ("Jane Doe")) (Json.bool true) (Json.bool false) (Json.bool false)
    rfl rfl rfl rfl rfl rfl rfl rfl rfl rfl rfl

/-- Claim C5: the pipeline is all-or-nothing — when any selected task fails
(here: the email completion call), the response is a single 500 `{error}`
body with no document entries, even though another selected task (the cover
letter) had already succeeded. -/
theorem c5_all_or_nothing (o : Oracles) (req : Request) (f : UploadedFile)
    (opts : Json) (content resp : String) (d nameJ cvF clF emF : Json) (eMsg : String)
    (hf : req.file = some f)
    (hopts : jsonParse req.optionsStr = some opts)
    (hx : (parseCVContent o f).1 = .ok content)
    (hr : o.complete resumeSystemPrompt (resumeUserPrompt content req.jobDescription) 4000 = .ok resp)
    (hd : parsedResume resp = some d)
    (hn : candidateNameField d = .ok nameJ)
    (hcv : jsGet opts ("cv") = .ok cvF)
    (hcl : jsGet opts ("coverLetter") = .ok clF)
    (hem : jsGet opts ("email") = .ok emF)
    (hcvb : truthy cvF = false)
    (hclb : truthy clF = true)
    (hemb : truthy emF = true)
    (hclok : taskErr (clSel o content req.jobDescription nameJ opts true).1 = none)
    (hemErr : o.complete emailSystemPrompt (emailUserPrompt req.jobDescription (jsToString nameJ)) 1024
        = .error eMsg) :
    respond (tailorHandler o req).1 = ⟨500, HttpBody.failure eMsg⟩ := by
  have h1 := handler_to_runTasks o req f opts content resp d nameJ cvF clF emF
    hf hopts hx hr hd hn hcv hcl hem
  rw [h1, hcvb, hclb, hemb]
  have h0 : taskErr (cvSel resp d nameJ opts false) = none := by
    simp [cvSel, taskErr]
  have hemsel : taskErr (emSel o req.jobDescription nameJ opts true).1 = some eMsg := by
    simp only [emSel, if_true, runEmailTask, hemErr]
    rfl
  have hfe : firstTaskErr (cvSel resp d nameJ opts false)
      (clSel o content req.jobDescription nameJ opts true).1
      (emSel o req.jobDescription nameJ opts true).1 = some eMsg := by
    simp only [firstTaskErr, h0, hclok, hemsel]
  rw [runTasks_fst_err o req.jobDescription opts f content resp d nameJ
    false true true eMsg hfe]
  rfl

theorem c5_all_or_nothing_witness :
    respond (tailorHandler oracleEmailDown reqClEmail).1 =
      ⟨500, HttpBody.failure ("getaddrinfo ENOTFOUND api.deepseek.com")⟩ :=
  c5_all_or_nothing oracleEmailDown reqClEmail fileA optsClEmailJson
    ("CV CONTENT") fullResumeJson fullResumeData (Json.str ("Jane Doe"))
    (Json.bool false) (Json.bool true) (Json.bool true)
    ("getaddrinfo ENOTFOUND api.deepseek.com")
    rfl rfl rfl rfl rfl rfl rfl rfl rfl rfl rfl rfl rfl rfl

/-- Claim C4 (amended): the handler removes every occurrence of the markers
`` ```json `` and `` ``` `` anywhere in the model's résumé response (a global
regex replace, not only leading/trailing markers), trims, then JSON-parses:
a parse failure surfaces as a user-facing JSON-parse error with no fallback
value, and the parsed value is the one the pipeline consumes. -/
theorem c4_global_strip_parse (o : Oracles) (req : Request) (f : UploadedFile)
    (opts : Json) (content resp : String)
    (hf : req.file = some f)
    (hopts : jsonParse req.optionsStr = some opts)
    (hx : (parseCVContent o f).1 = .ok content)
    (hr : o.complete resumeSystemPrompt (resumeUserPrompt content req.jobDescription) 4000 = .ok resp) :
    (parsedResume resp = none →
      respond (tailorHandler o req).1 = ⟨500, HttpBody.failure jsonSyntaxError⟩) ∧
    (∀ d e, parsedResume resp = some d → candidateNameField d = .error e →
      respond (tailorHandler o req).1 = ⟨500, HttpBody.failure e⟩) := by
  have h1 : (tailorHandler o req).1 = (afterResume o req.jobDescription opts f content resp).1 := by
    rw [handler_run o req f opts content hf hopts hx]
    show (afterExtract o req.jobDescription opts f content).1 = _
    rw [afterExtract_run o req.jobDescription opts f content resp hr]
  constructor
  · intro hnone
    rw [h1]
    unfold afterResume
    simp only [hnone]
    rfl
  · intro d e hsome herr
    rw [h1]
    unfold afterResume
    simp only [hsome, herr]
    rfl

theorem c4_global_strip_parse_witness :
    respond (tailorHandler oracleBadJson reqCvOnly).1 =
      ⟨500, HttpBody.failure jsonSyntaxError⟩ :=
  (c4_global_strip_parse oracleBadJson reqCvOnly fileA optsCvOnlyJson
    ("CV CONTENT") ("Sorry, I cannot produce JSON today.") rfl rfl rfl rfl).1 rfl

/-- Claim C4, refuted as stated: on a response whose only fence marker sits in
the middle of a JSON string value, stripping leading/trailing markers (the
spec's words, `specStripFences`) leaves the marker in place while the code's
global replace deletes it, so the parsed ResumeData differs from what the
claim prescribes. -/
theorem c4_counterexample :
    codeParsedName c4input = some ("ab") ∧
    specParsedName c4input = some ("a```b") ∧
    parsedResume c4input ≠ jsonParse (specStripFences c4input) := by
  refine ⟨rfl, rfl, fun hEq => ?_⟩
  have h1 : codeParsedName c4input = specParsedName c4input := by
    unfold codeParsedName specParsedName
    rw [hEq]
  exact absurd h1 (by decide)

/-- Claim C2 (amended): the handler performs no input validation.  A request
with no uploaded file does fail before any file read or network call (the
`cvFile.path` dereference throws), but a request carrying a file proceeds to
read the file and make the résumé completion call regardless of an empty
jobDescription or of options selecting none of cv/coverLetter/email. -/
theorem c2_no_validation (o : Oracles) (req : Request) :
    (req.file = none →
      (tailorHandler o req).2 = [] ∧ (respond (tailorHandler o req).1).status = 500) ∧
    (∀ f opts content, req.file = some f → jsonParse req.optionsStr = some opts →
      (parseCVContent o f).1 = .ok content →
      Ev.readFile f.path ∈ (tailorHandler o req).2 ∧
      Ev.completionCall ("resume") ∈ (tailorHandler o req).2) := by
  constructor
  · intro hnone
    unfold tailorHandler
    cases hjp : jsonParse req.optionsStr with
    | none => exact ⟨rfl, rfl⟩
    | some opts =>
      rw [hnone]
      exact ⟨rfl, rfl⟩
  · intro f opts content hf hopts hx
    rw [handler_run o req f opts content hf hopts hx]
    constructor
    · show Ev.readFile f.path ∈ Ev.readFile f.path :: (afterExtract o req.jobDescription opts f content).2
      exact List.mem_cons_self _ _
    · show Ev.completionCall ("resume") ∈
        Ev.readFile f.path :: (afterExtract o req.jobDescription opts f content).2
      exact List.mem_cons_of_mem _ (resume_call_mem_afterExtract o req.jobDescription opts f content)

theorem c2_no_validation_witness :
    ((tailorHandler oracleFull reqNoFile).2 = [] ∧
      (respond (tailorHandler oracleFull reqNoFile).1).status = 500) ∧
    (Ev.readFile fileA.path ∈ (tailorHandler oracleFull reqNoOpts).2 ∧
      Ev.completionCall ("resume") ∈ (tailorHandler oracleFull reqNoOpts).2) :=
  ⟨(c2_no_validation oracleFull reqNoFile).1 rfl,
   (c2_no_validation oracleFull reqNoOpts).2 fileA optsNoneJson ("CV CONTENT") rfl rfl rfl⟩

/-- Claim C2, refuted as stated: a request with an empty jobDescription whose
options select none of the three documents is not rejected — the handler
reads the uploaded file, makes the résumé completion call, and answers 200. -/
theorem c2_counterexample :
    reqNoOpts.jobDescription = "" ∧
    jsonParse reqNoOpts.optionsStr = some optsNoneJson ∧
    truthy (jsGetD optsNoneJson ("cv")) = false ∧
    truthy (jsGetD optsNoneJson ("coverLetter")) = false ∧
    truthy (jsGetD optsNoneJson ("email")) = false ∧
    (respond (tailorHandler oracleFull reqNoOpts).1).status = 200 ∧
    Ev.readFile fileA.path ∈ (tailorHandler oracleFull reqNoOpts).2 ∧
    Ev.completionCall ("resume") ∈ (tailorHandler oracleFull reqNoOpts).2 := by
  refine ⟨rfl, rfl, rfl, rfl, rfl, rfl, by decide, by decide⟩

/-- Claim C3: when the résumé response fails to parse as JSON the request
fails with the JSON error, but — against the claim — no `unlink` of the
uploaded temporary file is performed on this failure path (`fs.unlinkSync`
at part_000:421 runs only after `Promise.all` succeeds); on the success path
the file is removed exactly once. -/
theorem c3_leak_on_parse_failure :
    (tailorHandler oracleBadJson reqAll).1 = .error jsonSyntaxError ∧
    (tailorHandler oracleBadJson reqAll).2 =
      [Ev.readFile fileA.path, Ev.completionCall ("resume")] ∧
    Ev.unlink fileA.path ∉ (tailorHandler oracleBadJson reqAll).2 ∧
    (tailorHandler oracleFull reqAll).2.count (Ev.unlink fileA.path) = 1 := by
  refine ⟨rfl, rfl, by decide, by decide⟩

/-- Claim C1: on the plain-text DOCX rendering path (coverLetter and email
selected with format "docx"), whenever generation succeeds the renderer
succeeds and its output is the serialization of a single title heading block
followed by the body paragraph, a non-empty binary buffer, which the
orchestrator returns base64-encoded in `fileData`.  (`generateTextDocx` is
modelled from the spec — see its definition.) -/
theorem c1_textdocx_structure (o : Oracles) (req : Request) (f : UploadedFile)
    (opts : Json) (content resp : String) (d nameJ cvF clF emF : Json)
    (clText emText : String)
    (hf : req.file = some f)
    (hopts : jsonParse req.optionsStr = some opts)
    (hx : (parseCVContent o f).1 = .ok content)
    (hr : o.complete resumeSystemPrompt (resumeUserPrompt content req.jobDescription) 4000 = .ok resp)
    (hd : parsedResume resp = some d)
    (hn : candidateNameField d = .ok nameJ)
    (hcv : jsGet opts ("cv") = .ok cvF)
    (hcl : jsGet opts ("coverLetter") = .ok clF)
    (hem : jsGet opts ("email") = .ok emF)
    (hcvb : truthy cvF = false)
    (hclb : truthy clF = true)
    (hemb : truthy emF = true)
    (hfmt : isPdfFmt (fmtOf opts) = false)
    (hclText : o.complete clSystemPrompt (clUserPrompt content req.jobDescription (jsToString nameJ)) 2048
        = .ok clText)
    (hemText : o.complete emailSystemPrompt (emailUserPrompt req.jobDescription (jsToString nameJ)) 1024
        = .ok emText) :
    (clEntry (tailorHandler o req).1).map DocEntry.fileData =
      some (b64Encode (docxPack [DocxBlock.heading ("Cover Letter"), DocxBlock.para clText])) ∧
    (emailEntry (tailorHandler o req).1).map DocEntry.fileData =
      some (b64Encode (docxPack [DocxBlock.heading ("Application Email"), DocxBlock.para emText])) ∧
    0 < (docxPack [DocxBlock.heading ("Cover Letter"), DocxBlock.para clText]).length ∧
    0 < (docxPack [DocxBlock.heading ("Application Email"), DocxBlock.para emText]).length := by
  have h1 := handler_to_runTasks o req f opts content resp d nameJ cvF clF emF
    hf hopts hx hr hd hn hcv hcl hem
  rw [h1, hcvb, hclb, hemb]
  have hclSel : (clSel o content req.jobDescription nameJ opts true).1 =
      some (Except.ok
        { preview := clText,
          fileName := jsToString nameJ ++ "_Cover_Letter." ++ jsToString (fmtOf opts),
          fileData := b64Encode (docxPack [DocxBlock.heading ("Cover Letter"), DocxBlock.para clText]) }) := by
    simp only [clSel, if_true, runClTask, hclText, hfmt, generateTextDocx]
    rfl
  have hemSel : (emSel o req.jobDescription nameJ opts true).1 =
      some (Except.ok
        { preview := emText,
          fileName := jsToString nameJ ++ "_Email." ++ jsToString (fmtOf opts),
          fileData := b64Encode (docxPack [DocxBlock.heading ("Application Email"), DocxBlock.para emText]) }) := by
    simp only [emSel, if_true, runEmailTask, hemText, hfmt, generateTextDocx]
    rfl
  have t1 : taskErr (cvSel resp d nameJ opts false) = none := by
    simp [cvSel, taskErr]
  have t2 : taskErr (clSel o content req.jobDescription nameJ opts true).1 = none := by
    rw [hclSel]
    rfl
  have t3 : taskErr (emSel o req.jobDescription nameJ opts true).1 = none := by
    rw [hemSel]
    rfl
  have hfe : firstTaskErr (cvSel resp d nameJ opts false)
      (clSel o content req.jobDescription nameJ opts true).1
      (emSel o req.jobDescription nameJ opts true).1 = none := by
    simp only [firstTaskErr, t1, t2, t3]
  rw [runTasks_fst_ok o req.jobDescription opts f content resp d nameJ
    false true true hfe]
  refine ⟨?_, ?_, ?_, ?_⟩
  · simp only [clEntry]
    rw [hclSel]
    rfl
  · simp only [emailEntry]
    rw [hemSel]
    rfl
  · simp [docxPack]
  · simp [docxPack]

theorem c1_textdocx_structure_witness :
    (clEntry (tailorHandler oracleFull reqClEmail).1).map DocEntry.fileData =
      some (b64Encode (docxPack [DocxBlock.heading ("Cover Letter"),
        DocxBlock.para ("Dear Hiring Manager, I write to apply.")])) ∧
    (emailEntry (tailorHandler oracleFull reqClEmail).1).map DocEntry.fileData =
      some (b64Encode (docxPack [DocxBlock.heading ("Application Email"),
        DocxBlock.para ("Hello, please find my application attached.")])) ∧
    0 < (docxPack [DocxBlock.heading ("Cover Letter"),
          DocxBlock.para ("Dear Hiring Manager, I write to apply.")]).length ∧
    0 < (docxPack [DocxBlock.heading ("Application Email"),
          DocxBlock.para ("Hello, please find my application attached.")]).length :=
  c1_textdocx_structure oracleFull reqClEmail fileA optsClEmailJson
    ("CV CONTENT") fullResumeJson fullResumeData (Json.str ("Jane Doe"))
    (Json.bool false) (Json.bool true) (Json.bool true)
    ("Dear Hiring Manager, I write to apply.")
    ("Hello, please find my application attached.")
    rfl rfl rfl rfl rfl rfl rfl rfl rfl rfl rfl rfl rfl rfl rfl

/-- Claim C8: multer accepts exactly the files whose declared MIME type is
PDF or DOCX and whose size is at most 10MB; the content extractor then
dispatches on the declared MIME type — pdf-parse text extraction for
`application/pdf`, mammoth raw-text extraction for any other accepted
type. -/
theorem c8_upload_filter_dispatch (f : UploadedFile) (o : Oracles) :
    (uploadAccepted f = true ↔
      f.mimetype ∈ allowedTypes ∧ f.bytes.length ≤ 10 * 1024 * 1024) ∧
    (f.mimetype = "application/pdf" → (parseCVContent o f).1 = o.pdfExtract f.bytes) ∧
    (f.mimetype ≠ "application/pdf" → (parseCVContent o f).1 = o.docxExtract f.bytes) := by
  refine ⟨?_, ?_, ?_⟩
  · simp [uploadAccepted, fileFilterAccepts, List.contains]
  · intro h
    show (if f.mimetype = "application/pdf" then o.pdfExtract f.bytes else o.docxExtract f.bytes)
      = o.pdfExtract f.bytes
    rw [if_pos h]
  · intro h
    show (if f.mimetype = "application/pdf" then o.pdfExtract f.bytes else o.docxExtract f.bytes)
      = o.docxExtract f.bytes
    rw [if_neg h]

theorem c8_upload_filter_dispatch_witness :
    uploadAccepted filePdfA = true ∧
    (parseCVContent oracleFull filePdfA).1 = oracleFull.pdfExtract filePdfA.bytes ∧
    uploadAccepted fileA = true ∧
    (parseCVContent oracleFull fileA).1 = oracleFull.docxExtract fileA.bytes := by
  have hp := c8_upload_filter_dispatch filePdfA oracleFull
  have hd := c8_upload_filter_dispatch fileA oracleFull
  exact ⟨hp.1.mpr (by decide), hp.2.1 rfl, hd.1.mpr (by decide), hd.2.2 (by decide)⟩
